import Mathlib

/-!
Verification of the payment submission flow of the Zenith-Flow demo
application (`src/components/PaymentForm.tsx`).

The flow is a React event handler `handleSubmit` over component state
(`recipient`, `amount`, `memo`, `isProcessing`, `success`, `error`,
`txSignature`).  We embed it as a pure function over an explicit
`FormState`, parameterised by an `Env` that supplies the outcomes of the
external collaborators (the connected wallet's public key, the
`new PublicKey` address parser, `parseFloat`, the wallet adapter's
`sendTransaction`, and `connection.confirmTransaction`).  JavaScript
numbers are modelled as exact rationals (`ℚ`), machine strings as `String`.

The handler runs synchronously up to its first `await` (the
`sendTransaction` call); everything before that point — the state resets
and all input validation — completes before any other click event can be
processed, and everything after it resumes with `isProcessing = true`
visible to the UI.  We therefore split the embedding into `submitPhase1`
(the synchronous prefix) and `submitResume` (the continuation after the
`sendTransaction` await), and recover the whole handler as `handleSubmit`.
A `Trace` records the externally visible effects: the transactions handed
to `sendTransaction` and the `setTimeout` timers scheduled.
-/

namespace ZenithFlow

/-- Does the second character list start with the first one? -/
def listStartsWith : List Char → List Char → Bool
  | [], _ => true
  | _ :: _, [] => false
  | a :: as, b :: bs => a == b && listStartsWith as bs

/-- Does the second character list contain the first as a contiguous run? -/
def listHasSub (needle : List Char) : List Char → Bool
  | [] => needle.isEmpty
  | c :: cs => listStartsWith needle (c :: cs) || listHasSub needle cs

/-- JavaScript `hay.includes(needle)` on strings. -/
def strContains (hay needle : String) : Bool :=
  listHasSub needle.data hay.data

/-- `LAMPORTS_PER_SOL` from `@solana/web3.js`: minor units per native unit. -/
def LAMPORTS_PER_SOL : ℚ := 1000000000

/-- Parameters of `SystemProgram.transfer` (PaymentForm.tsx lines 64-68). -/
structure TransferParams where
  fromPubkey : String
  toPubkey : String
  lamports : ℤ
  deriving Repr, DecidableEq

/-- A transaction instruction; the flow only ever builds transfers. -/
inductive Instruction where
  | transfer (params : TransferParams)
  deriving Repr, DecidableEq

/-- The `Transaction` envelope of `@solana/web3.js`, restricted to the
fields the flow touches: the instruction list (via `.add`), and the
`recentBlockhash` / `feePayer` fields the code deliberately leaves unset. -/
structure Transaction where
  instructions : List Instruction
  recentBlockhash : Option String
  feePayer : Option String
  deriving Repr, DecidableEq

/-- `new Transaction().add(ix)`: one instruction, no blockhash, no fee payer. -/
def newTransactionAdd (ix : Instruction) : Transaction :=
  { instructions := [ix], recentBlockhash := none, feePayer := none }

/-- The options object passed to `sendTransaction` (PaymentForm.tsx lines 81-83). -/
structure SendOptions where
  skipPreflight : Bool
  preflightCommitment : String
  maxRetries : Nat
  deriving Repr, DecidableEq

/-- The literal options the flow passes to `sendTransaction`. -/
def sendOpts : SendOptions :=
  { skipPreflight := false, preflightCommitment := "confirmed", maxRetries := 3 }

/-- Behaviour of `connection.confirmTransaction(signature, \x27confirmed\x27)`
as a promise: when (in milliseconds) it settles, if ever, and whether it
resolves or rejects with a message. -/
structure ConfirmBehavior where
  settlesAt : Option Nat
  result : Except String Unit

/-- `Promise.race([confirmationPromise, timeoutPromise])` with the 30000 ms
`setTimeout` of PaymentForm.tsx lines 90-95: if the confirmation promise has
not settled within 30000 ms, the race rejects with `Confirmation timeout`;
otherwise the confirmation's own settlement wins the race. -/
def raceOutcome (cb : ConfirmBehavior) : Except String Unit :=
  match cb.settlesAt with
  | none => Except.error "Confirmation timeout"
  | some t => if t ≤ 30000 then cb.result else Except.error "Confirmation timeout"

/-- Outcomes of the external collaborators of one submission attempt:
the wallet snapshot (`useWallet().publicKey`), the `new PublicKey` parser
(`none` models a constructor throw), `parseFloat` (`none` models `NaN`),
the wallet adapter's `sendTransaction` (rejection message or resolved
signature), and the confirmation promise for a given signature. -/
structure Env where
  publicKey : Option String
  parsePublicKey : String → Option String
  parseFloat : String → Option ℚ
  sendTransaction : Transaction → SendOptions → Except String String
  confirmTransaction : String → ConfirmBehavior

/-- The React component state of `PaymentForm`. -/
structure FormState where
  recipient : String
  amount : String
  memo : String
  isProcessing : Bool
  success : Bool
  error : Option String
  txSignature : Option String
  deriving Repr, DecidableEq

/-- The initial `useState` values of the form. -/
def initialForm : FormState :=
  { recipient := "", amount := "", memo := "", isProcessing := false,
    success := false, error := none, txSignature := none }

/-- The two `setTimeout(..., 8000)` callbacks the flow schedules. -/
inductive TimerAction where
  | clearSuccess
  | clearError
  deriving Repr, DecidableEq

/-- Externally visible effects of a run: transactions handed to
`sendTransaction`, in order, and the timers scheduled with their delays. -/
structure Trace where
  sends : List Transaction
  timers : List (Nat × TimerAction)
  deriving Repr, DecidableEq

/-- The empty trace. -/
def Trace.empty : Trace := { sends := [], timers := [] }

/-- Concatenation of traces of successive execution phases. -/
def Trace.append (a b : Trace) : Trace :=
  { sends := a.sends ++ b.sends, timers := a.timers ++ b.timers }

/-- State updates entering the `try` block (PaymentForm.tsx lines 33-36):
`setError(null); setSuccess(false); setIsProcessing(true); setTxSignature(null)`. -/
def startedState (s : FormState) : FormState :=
  { s with error := none, success := false, isProcessing := true, txSignature := none }

/-- Outer `catch` plus `finally` (PaymentForm.tsx lines 129-141): the thrown
message is displayed, `setTimeout(() => setError(null), 8000)` is scheduled,
and `setIsProcessing(false)` runs. -/
def failState (s : FormState) (msg : String) : FormState :=
  { s with error := some msg, isProcessing := false }

/-- The trace of a failing run: no further sends, one error-clearing timer. -/
def failTrace : Trace :=
  { sends := [], timers := [(8000, TimerAction.clearError)] }

/-- The inner `catch (txError)` of PaymentForm.tsx lines 112-127: best-effort
classification of the rejection message by substring matching; unmatched
messages are rethrown verbatim.  Every branch rethrows, so the outer catch
displays the returned message. -/
def classifyTxError (msg : String) : String :=
  if strContains msg "User rejected" then "You cancelled the transaction"
  else if strContains msg "Signing failed" then "Passkey authentication failed. Please try again."
  else if strContains msg "insufficient" then "Insufficient SOL balance"
  else if strContains msg "blockhash" then "Transaction expired. Please try again."
  else msg

/-- Result of the synchronous prefix of `handleSubmit`: either the handler
already completed (guard return or validation failure), or it is suspended
at the `await sendTransaction` with the mid-flight component state and the
transaction whose send is in flight. -/
inductive Phase1Result where
  | done (s : FormState) (tr : Trace)
  | awaitingSend (s : FormState) (tx : Transaction) (tr : Trace)

/-- The synchronous prefix of `handleSubmit` (PaymentForm.tsx lines 25-84):
the missing-wallet guard, the state resets, recipient parsing
(`new PublicKey(recipient)`), amount parsing and range checks, the
minor-unit conversion `Math.floor(amountNum * LAMPORTS_PER_SOL)`, the
construction of the single-instruction transaction, and the initiation of
`sendTransaction`, at which point the handler suspends. -/
def submitPhase1 (env : Env) (s : FormState) : Phase1Result :=
  match env.publicKey with
  | none => Phase1Result.done { s with error := some "Wallet not connected" } Trace.empty
  | some pk =>
    let s1 := startedState s
    match env.parsePublicKey s1.recipient with
    | none => Phase1Result.done (failState s1 "Invalid recipient address format") failTrace
    | some recipientPubkey =>
      match env.parseFloat s1.amount with
      | none => Phase1Result.done (failState s1 "Invalid amount") failTrace
      | some amountNum =>
        if amountNum ≤ 0 then
          Phase1Result.done (failState s1 "Invalid amount") failTrace
        else if amountNum > 0.5 then
          Phase1Result.done (failState s1 "Maximum 0.5 SOL for demo purposes") failTrace
        else
          let lamports : ℤ := ⌊amountNum * LAMPORTS_PER_SOL⌋
          let transferInstruction := Instruction.transfer
            { fromPubkey := pk, toPubkey := recipientPubkey, lamports := lamports }
          let transaction := newTransactionAdd transferInstruction
          Phase1Result.awaitingSend s1 transaction
            { sends := [transaction], timers := [] }

/-- The continuation of `handleSubmit` after the `sendTransaction` await
(PaymentForm.tsx lines 80-141): a send rejection or a losing/failed
confirmation race is classified by the inner catch and rethrown to the
outer catch; a won race records the signature, shows the success banner,
clears the three fields, schedules the 8000 ms banner clear, and the
`finally` resets `isProcessing`. -/
def submitResume (env : Env) (s : FormState) (tx : Transaction) : FormState × Trace :=
  match env.sendTransaction tx sendOpts with
  | Except.error msg => (failState s (classifyTxError msg), failTrace)
  | Except.ok signature =>
    match raceOutcome (env.confirmTransaction signature) with
    | Except.error msg => (failState s (classifyTxError msg), failTrace)
    | Except.ok _ =>
      ({ s with txSignature := some signature, success := true,
                recipient := "", amount := "", memo := "", isProcessing := false },
       { sends := [], timers := [(8000, TimerAction.clearSuccess)] })

/-- The whole `handleSubmit` run: the synchronous prefix followed, when it
suspended, by the resumption. -/
def handleSubmit (env : Env) (s : FormState) : FormState × Trace :=
  match submitPhase1 env s with
  | Phase1Result.done s' tr => (s', tr)
  | Phase1Result.awaitingSend s' tx tr =>
    let r := submitResume env s' tx
    (r.1, Trace.append tr r.2)

/-- One click of the submit button: the `ZenithButton` is rendered with
`disabled={isProcessing || !publicKey}` (PaymentForm.tsx line 269), and a
disabled button does not fire the form's submit handler, so the click is a
no-op in those states; otherwise `handleSubmit` runs. -/
def submitClick (env : Env) (s : FormState) : FormState × Trace :=
  if s.isProcessing || env.publicKey.isNone then (s, Trace.empty)
  else handleSubmit env s

/-- Two submit clicks in rapid succession: the second click is processed
while the first invocation, if it suspended, is still awaiting
`sendTransaction` (the component state visible to the second click is the
mid-flight state of the first). -/
def doubleSubmit (env : Env) (s : FormState) : FormState × Trace :=
  match submitPhase1 env s with
  | Phase1Result.done s1 tr1 =>
    let r2 := submitClick env s1
    (r2.1, Trace.append tr1 r2.2)
  | Phase1Result.awaitingSend s1 tx tr1 =>
    let r2 := submitClick env s1
    let r3 := submitResume env r2.1 tx
    (r3.1, Trace.append tr1 (Trace.append r2.2 r3.2))

/-- Firing one of the scheduled `setTimeout` callbacks
(PaymentForm.tsx lines 107-110 and line 138). -/
def applyTimerAction : TimerAction → FormState → FormState
  | TimerAction.clearSuccess, s => { s with success := false, txSignature := none }
  | TimerAction.clearError, s => { s with error := none }

/-- The static heading of the error banner (PaymentForm.tsx line 199). -/
def errorBannerTitle : String := "Transaction Failed"

/-- The error banner as rendered: whenever `error` is set, a banner with the
static heading `Transaction Failed` and the stored message is shown. -/
def renderErrorBanner (s : FormState) : Option (String × String) :=
  s.error.map (fun m => (errorBannerTitle, m))

/-- The transaction a validated submission hands to `sendTransaction`:
sender, parsed recipient, and `Math.floor(amountNum * LAMPORTS_PER_SOL)`. -/
def paymentTx (pk r : String) (a : ℚ) : Transaction :=
  newTransactionAdd (Instruction.transfer
    { fromPubkey := pk, toPubkey := r, lamports := ⌊a * LAMPORTS_PER_SOL⌋ })

/-- A concrete address parser for test environments: accepts exactly the
string `Recipient1`, modelling one syntactically valid address. -/
def demoParsePublicKey : String → Option String :=
  fun r => if r = "Recipient1" then some "Recipient1" else none

/-- A concrete `parseFloat` for test environments, defined on the amount
strings the tests use; every other string models `NaN`. -/
def demoParseFloat : String → Option ℚ :=
  fun a =>
    if a = "0.01" then some (1/100)
    else if a = "0.2" then some (1/5)
    else if a = "0.5" then some (1/2)
    else if a = "0.51" then some (51/100)
    else none

/-- A nominal environment: wallet connected, send resolves with `SIG123`,
confirmation resolves successfully after one second. -/
def envOk : Env :=
  { publicKey := some "Sender1"
    parsePublicKey := demoParsePublicKey
    parseFloat := demoParseFloat
    sendTransaction := fun _ _ => Except.ok "SIG123"
    confirmTransaction := fun _ => { settlesAt := some 1000, result := Except.ok () } }

/-- Environment whose confirmation promise never settles, so the 30000 ms
timeout wins the race. -/
def envTimeout : Env :=
  { envOk with confirmTransaction := fun _ => { settlesAt := none, result := Except.ok () } }

/-- Environment whose `sendTransaction` rejects with a user-cancellation
message. -/
def envRejected : Env :=
  { envOk with sendTransaction := fun _ _ => Except.error "User rejected the request" }

/-- A filled-in form, idle, with a parseable recipient and amount. -/
def formReady : FormState :=
  { initialForm with recipient := "Recipient1", amount := "0.01", memo := "Testing" }

@[simp] lemma startedState_recipient (s : FormState) :
    (startedState s).recipient = s.recipient := rfl

@[simp] lemma startedState_amount (s : FormState) :
    (startedState s).amount = s.amount := rfl

@[simp] lemma startedState_memo (s : FormState) :
    (startedState s).memo = s.memo := rfl

@[simp] lemma startedState_isProcessing (s : FormState) :
    (startedState s).isProcessing = true := rfl

section RunLemmas

variable (env : Env) (s : FormState)

lemma submitPhase1_noWallet (h : env.publicKey = none) :
    submitPhase1 env s =
      Phase1Result.done { s with error := some "Wallet not connected" } Trace.empty := by
  simp only [submitPhase1, h]

lemma submitPhase1_badRecipient {pk : String}
    (hpk : env.publicKey = some pk)
    (hr : env.parsePublicKey s.recipient = none) :
    submitPhase1 env s =
      Phase1Result.done (failState (startedState s) "Invalid recipient address format")
        failTrace := by
  simp only [submitPhase1, hpk, startedState_recipient, hr]

lemma submitPhase1_nanAmount {pk r : String}
    (hpk : env.publicKey = some pk)
    (hr : env.parsePublicKey s.recipient = some r)
    (hf : env.parseFloat s.amount = none) :
    submitPhase1 env s =
      Phase1Result.done (failState (startedState s) "Invalid amount") failTrace := by
  simp only [submitPhase1, hpk, startedState_recipient, hr, startedState_amount, hf]

lemma submitPhase1_nonposAmount {pk r : String} {a : ℚ}
    (hpk : env.publicKey = some pk)
    (hr : env.parsePublicKey s.recipient = some r)
    (hf : env.parseFloat s.amount = some a)
    (ha : a ≤ 0) :
    submitPhase1 env s =
      Phase1Result.done (failState (startedState s) "Invalid amount") failTrace := by
  simp only [submitPhase1, hpk, startedState_recipient, hr, startedState_amount, hf,
    if_pos ha]

lemma submitPhase1_tooLarge {pk r : String} {a : ℚ}
    (hpk : env.publicKey = some pk)
    (hr : env.parsePublicKey s.recipient = some r)
    (hf : env.parseFloat s.amount = some a)
    (ha : 0.5 < a) :
    submitPhase1 env s =
      Phase1Result.done (failState (startedState s) "Maximum 0.5 SOL for demo purposes")
        failTrace := by
  have h0 : ¬ a ≤ 0 := not_le.mpr (lt_trans (by norm_num) ha)
  simp only [submitPhase1, hpk, startedState_recipient, hr, startedState_amount, hf,
    if_neg h0, gt_iff_lt, if_pos ha]

lemma submitPhase1_pass {pk r : String} {a : ℚ}
    (hpk : env.publicKey = some pk)
    (hr : env.parsePublicKey s.recipient = some r)
    (hf : env.parseFloat s.amount = some a)
    (h0 : 0 < a) (h5 : a ≤ 0.5) :
    submitPhase1 env s =
      Phase1Result.awaitingSend (startedState s) (paymentTx pk r a)
        { sends := [paymentTx pk r a], timers := [] } := by
  have h0' : ¬ a ≤ 0 := not_le.mpr h0
  have h5' : ¬ 0.5 < a := not_lt.mpr h5
  simp only [submitPhase1, hpk, startedState_recipient, hr, startedState_amount, hf,
    if_neg h0', gt_iff_lt, if_neg h5', paymentTx, newTransactionAdd]

lemma submitResume_sendError {tx : Transaction} {msg : String}
    (hsend : env.sendTransaction tx sendOpts = Except.error msg) :
    submitResume env s tx = (failState s (classifyTxError msg), failTrace) := by
  simp only [submitResume, hsend]

lemma submitResume_confirmError {tx : Transaction} {sig msg : String}
    (hsend : env.sendTransaction tx sendOpts = Except.ok sig)
    (hc : raceOutcome (env.confirmTransaction sig) = Except.error msg) :
    submitResume env s tx = (failState s (classifyTxError msg), failTrace) := by
  simp only [submitResume, hsend, hc]

lemma submitResume_confirmed {tx : Transaction} {sig : String}
    (hsend : env.sendTransaction tx sendOpts = Except.ok sig)
    (hc : raceOutcome (env.confirmTransaction sig) = Except.ok ()) :
    submitResume env s tx =
      ({ s with txSignature := some sig, success := true,
                recipient := "", amount := "", memo := "", isProcessing := false },
       { sends := [], timers := [(8000, TimerAction.clearSuccess)] }) := by
  simp only [submitResume, hsend, hc]

lemma submitResume_sends_nil (tx : Transaction) :
    (submitResume env s tx).2.sends = [] := by
  unfold submitResume
  cases hsend : env.sendTransaction tx sendOpts with
  | error msg => simp [failTrace]
  | ok sig =>
    cases hc : raceOutcome (env.confirmTransaction sig) with
    | error msg => simp [hc, failTrace]
    | ok u => simp [hc]

lemma submitResume_isProcessing_false (tx : Transaction) :
    (submitResume env s tx).1.isProcessing = false := by
  unfold submitResume
  cases hsend : env.sendTransaction tx sendOpts with
  | error msg => simp [failState]
  | ok sig =>
    cases hc : raceOutcome (env.confirmTransaction sig) with
    | error msg => simp [hc, failState]
    | ok u => simp [hc]

lemma handleSubmit_pass {pk r : String} {a : ℚ}
    (hpk : env.publicKey = some pk)
    (hr : env.parsePublicKey s.recipient = some r)
    (hf : env.parseFloat s.amount = some a)
    (h0 : 0 < a) (h5 : a ≤ 0.5) :
    handleSubmit env s =
      ((submitResume env (startedState s) (paymentTx pk r a)).1,
       { sends := [paymentTx pk r a],
         timers := (submitResume env (startedState s) (paymentTx pk r a)).2.timers }) := by
  simp only [handleSubmit, submitPhase1_pass env s hpk hr hf h0 h5, Trace.append,
    List.singleton_append]
  rw [submitResume_sends_nil]
  simp

end RunLemmas

/-- C2: for every recipient string the external address parser rejects, a
submission attempt (with a connected wallet) ends with the
invalid-recipient error message and the trace of transactions handed to
`sendTransaction` is empty — the wallet's sign-and-send is never invoked. -/
theorem c2_invalid_recipient_rejected_before_wallet
    (env : Env) (s : FormState) (pk : String)
    (hpk : env.publicKey = some pk)
    (hr : env.parsePublicKey s.recipient = none) :
    (handleSubmit env s).1.error = some "Invalid recipient address format" ∧
    (handleSubmit env s).2.sends = [] := by
  simp [handleSubmit, submitPhase1_badRecipient env s hpk hr, failState, failTrace]

/-- Witness for C2 at a concrete input: connected wallet, recipient string
that the parser rejects. -/
theorem c2_witness :
    envOk.publicKey = some "Sender1" ∧
    envOk.parsePublicKey "not-an-address" = none ∧
    (handleSubmit envOk { formReady with recipient := "not-an-address" }).1.error =
      some "Invalid recipient address format" ∧
    (handleSubmit envOk { formReady with recipient := "not-an-address" }).2.sends = [] := by
  refine ⟨rfl, rfl, ?_⟩
  exact c2_invalid_recipient_rejected_before_wallet envOk
    { formReady with recipient := "not-an-address" } "Sender1" rfl rfl

/-- C3: for every amount string that parses to `NaN` (non-numeric) or to a
value `≤ 0`, a submission attempt with a connected wallet and a parseable
recipient ends with the invalid-amount error message and no transaction is
ever handed to `sendTransaction`. -/
theorem c3_invalid_amount_rejected_before_wallet
    (env : Env) (s : FormState) (pk r : String)
    (hpk : env.publicKey = some pk)
    (hr : env.parsePublicKey s.recipient = some r)
    (hbad : env.parseFloat s.amount = none ∨
      ∃ a : ℚ, env.parseFloat s.amount = some a ∧ a ≤ 0) :
    (handleSubmit env s).1.error = some "Invalid amount" ∧
    (handleSubmit env s).2.sends = [] := by
  rcases hbad with hf | ⟨a, hf, ha⟩
  · simp [handleSubmit, submitPhase1_nanAmount env s hpk hr hf, failState, failTrace]
  · simp [handleSubmit, submitPhase1_nonposAmount env s hpk hr hf ha, failState, failTrace]

/-- Witness for C3 at a concrete input: valid recipient, non-numeric amount. -/
theorem c3_witness :
    envOk.publicKey = some "Sender1" ∧
    envOk.parsePublicKey "Recipient1" = some "Recipient1" ∧
    envOk.parseFloat "abc" = none ∧
    (handleSubmit envOk { formReady with amount := "abc" }).1.error = some "Invalid amount" ∧
    (handleSubmit envOk { formReady with amount := "abc" }).2.sends = [] := by
  refine ⟨rfl, rfl, rfl, ?_⟩
  exact c3_invalid_amount_rejected_before_wallet envOk
    { formReady with amount := "abc" } "Sender1" "Recipient1" rfl rfl (Or.inl rfl)

/-- C4: the 0.5 demo ceiling is inclusive.  With a connected wallet and a
parseable recipient, an amount parsing to exactly `0.5` passes the ceiling
check — the flow goes on to hand the transfer to `sendTransaction` — while
any amount parsing to a value strictly greater than `0.5` ends with the
amount-too-large error message and `sendTransaction` is never invoked. -/
theorem c4_demo_ceiling_inclusive
    (env : Env) (s : FormState) (pk r : String) (a : ℚ)
    (hpk : env.publicKey = some pk)
    (hr : env.parsePublicKey s.recipient = some r)
    (hf : env.parseFloat s.amount = some a) :
    (a = 0.5 → (handleSubmit env s).2.sends = [paymentTx pk r a]) ∧
    (0.5 < a →
      (handleSubmit env s).1.error = some "Maximum 0.5 SOL for demo purposes" ∧
      (handleSubmit env s).2.sends = []) := by
  constructor
  · intro h5
    have h0 : 0 < a := by rw [h5]; norm_num
    have h5' : a ≤ 0.5 := le_of_eq h5
    rw [handleSubmit_pass env s hpk hr hf h0 h5']
  · intro hgt
    simp [handleSubmit, submitPhase1_tooLarge env s hpk hr hf hgt, failState, failTrace]

/-- Witness for C4 at concrete inputs: amount `0.5` is sent, amount `0.51`
is rejected with the ceiling message and no wallet call. -/
theorem c4_witness :
    ((1:ℚ)/2 = 0.5 ∧
      (handleSubmit envOk { formReady with amount := "0.5" }).2.sends =
        [paymentTx "Sender1" "Recipient1" (1/2)]) ∧
    ((0.5:ℚ) < 51/100 ∧
      (handleSubmit envOk { formReady with amount := "0.51" }).1.error =
        some "Maximum 0.5 SOL for demo purposes" ∧
      (handleSubmit envOk { formReady with amount := "0.51" }).2.sends = []) := by
  have hhalf : (1:ℚ)/2 = 0.5 := by norm_num
  have hgt : (0.5:ℚ) < 51/100 := by norm_num
  constructor
  · exact ⟨hhalf,
      (c4_demo_ceiling_inclusive envOk { formReady with amount := "0.5" }
        "Sender1" "Recipient1" (1/2) rfl rfl rfl).1 hhalf⟩
  · exact ⟨hgt,
      (c4_demo_ceiling_inclusive envOk { formReady with amount := "0.51" }
        "Sender1" "Recipient1" (51/100) rfl rfl rfl).2 hgt⟩

/-- C5: for every validated positive amount `a` (parseable, `0 < a ≤ 0.5`),
the single transaction handed to `sendTransaction` carries the minor-unit
value `⌊a * LAMPORTS_PER_SOL⌋` — the floor, not a rounding — and at
`a = 1/100` this value is exactly `10000000`. -/
theorem c5_minor_units_floored
    (env : Env) (s : FormState) (pk r : String) (a : ℚ)
    (hpk : env.publicKey = some pk)
    (hr : env.parsePublicKey s.recipient = some r)
    (hf : env.parseFloat s.amount = some a)
    (h0 : 0 < a) (h5 : a ≤ 0.5) :
    (handleSubmit env s).2.sends =
      [newTransactionAdd (Instruction.transfer
        { fromPubkey := pk, toPubkey := r, lamports := ⌊a * LAMPORTS_PER_SOL⌋ })] ∧
    (a = 1/100 → ⌊a * LAMPORTS_PER_SOL⌋ = 10000000) := by
  constructor
  · rw [handleSubmit_pass env s hpk hr hf h0 h5]
    simp [paymentTx]
  · intro h
    rw [h]
    norm_num [LAMPORTS_PER_SOL]

/-- Witness for C5 at the concrete input of the spec: amount `0.01`
yields exactly `10000000` lamports in the sent transaction. -/
theorem c5_witness :
    (0:ℚ) < 1/100 ∧ (1:ℚ)/100 ≤ 0.5 ∧
    (handleSubmit envOk formReady).2.sends =
      [newTransactionAdd (Instruction.transfer
        { fromPubkey := "Sender1", toPubkey := "Recipient1", lamports := 10000000 })] := by
  have h0 : (0:ℚ) < 1/100 := by norm_num
  have h5 : (1:ℚ)/100 ≤ 0.5 := by norm_num
  have h := c5_minor_units_floored envOk formReady "Sender1" "Recipient1" (1/100)
    rfl rfl rfl h0 h5
  refine ⟨h0, h5, ?_⟩
  rw [h.1, h.2 rfl]

/-- C6: every submission that passes validation hands `sendTransaction`
exactly one transaction envelope, containing exactly one transfer
instruction whose sender is the connected wallet address, whose recipient
is the parsed recipient address and whose value is the computed minor-unit
integer, and whose `recentBlockhash` and `feePayer` fields are unset. -/
theorem c6_envelope_single_transfer_no_blockhash
    (env : Env) (s : FormState) (pk r : String) (a : ℚ)
    (hpk : env.publicKey = some pk)
    (hr : env.parsePublicKey s.recipient = some r)
    (hf : env.parseFloat s.amount = some a)
    (h0 : 0 < a) (h5 : a ≤ 0.5) :
    (handleSubmit env s).2.sends =
      [{ instructions := [Instruction.transfer
           { fromPubkey := pk, toPubkey := r, lamports := ⌊a * LAMPORTS_PER_SOL⌋ }],
         recentBlockhash := none,
         feePayer := none }] := by
  rw [handleSubmit_pass env s hpk hr hf h0 h5]
  simp [paymentTx, newTransactionAdd]

/-- Witness for C6 at a concrete input: one send, one transfer instruction,
no blockhash, no fee payer. -/
theorem c6_witness :
    (0:ℚ) < 1/5 ∧ (1:ℚ)/5 ≤ 0.5 ∧
    (handleSubmit envOk { formReady with amount := "0.2" }).2.sends =
      [{ instructions := [Instruction.transfer
           { fromPubkey := "Sender1", toPubkey := "Recipient1",
             lamports := ⌊(1/5 : ℚ) * LAMPORTS_PER_SOL⌋ }],
         recentBlockhash := none,
         feePayer := none }] := by
  have h0 : (0:ℚ) < 1/5 := by norm_num
  have h5 : (1:ℚ)/5 ≤ 0.5 := by norm_num
  exact ⟨h0, h5, c6_envelope_single_transfer_no_blockhash envOk
    { formReady with amount := "0.2" } "Sender1" "Recipient1" (1/5) rfl rfl rfl h0 h5⟩

/-- C7: when `sendTransaction` resolves with a signature and the
confirmation race is won within the timeout, the flow stores the
signature, enters the success state, resets the three form fields to
empty, schedules the 8000 ms success-clearing timer, and firing that timer
clears both the success flag and the stored signature. -/
theorem c7_success_path
    (env : Env) (s : FormState) (pk r sig : String) (a : ℚ)
    (hpk : env.publicKey = some pk)
    (hr : env.parsePublicKey s.recipient = some r)
    (hf : env.parseFloat s.amount = some a)
    (h0 : 0 < a) (h5 : a ≤ 0.5)
    (hsend : env.sendTransaction (paymentTx pk r a) sendOpts = Except.ok sig)
    (hc : raceOutcome (env.confirmTransaction sig) = Except.ok ()) :
    (handleSubmit env s).1.txSignature = some sig ∧
    (handleSubmit env s).1.success = true ∧
    (handleSubmit env s).1.recipient = "" ∧
    (handleSubmit env s).1.amount = "" ∧
    (handleSubmit env s).1.memo = "" ∧
    (handleSubmit env s).2.timers = [(8000, TimerAction.clearSuccess)] ∧
    (applyTimerAction TimerAction.clearSuccess (handleSubmit env s).1).success = false ∧
    (applyTimerAction TimerAction.clearSuccess (handleSubmit env s).1).txSignature = none := by
  rw [handleSubmit_pass env s hpk hr hf h0 h5,
    submitResume_confirmed env (startedState s) hsend hc]
  simp [applyTimerAction]

/-- Witness for C7 at the spec's concrete input: signature `SIG123`,
confirmed, fields reset. -/
theorem c7_witness :
    (0:ℚ) < 1/100 ∧ (1:ℚ)/100 ≤ 0.5 ∧
    envOk.sendTransaction (paymentTx "Sender1" "Recipient1" (1/100)) sendOpts =
      Except.ok "SIG123" ∧
    raceOutcome (envOk.confirmTransaction "SIG123") = Except.ok () ∧
    (handleSubmit envOk formReady).1.txSignature = some "SIG123" ∧
    (handleSubmit envOk formReady).1.success = true ∧
    (handleSubmit envOk formReady).1.recipient = "" ∧
    (handleSubmit envOk formReady).1.amount = "" ∧
    (handleSubmit envOk formReady).1.memo = "" := by
  have h0 : (0:ℚ) < 1/100 := by norm_num
  have h5 : (1:ℚ)/100 ≤ 0.5 := by norm_num
  have h := c7_success_path envOk formReady "Sender1" "Recipient1" "SIG123" (1/100)
    rfl rfl rfl h0 h5 rfl rfl
  exact ⟨h0, h5, rfl, rfl, h.1, h.2.1, h.2.2.1, h.2.2.2.1, h.2.2.2.2.1⟩

/-- C9: when `sendTransaction` rejects with a message containing the
substring `User rejected`, the flow displays the fixed user-cancellation
message, and (unless the underlying message happens to equal that fixed
text) it does not display the underlying message verbatim as the catch-all
branch would. -/
theorem c9_user_rejected_classified
    (env : Env) (s : FormState) (pk r msg : String) (a : ℚ)
    (hpk : env.publicKey = some pk)
    (hr : env.parsePublicKey s.recipient = some r)
    (hf : env.parseFloat s.amount = some a)
    (h0 : 0 < a) (h5 : a ≤ 0.5)
    (hsend : env.sendTransaction (paymentTx pk r a) sendOpts = Except.error msg)
    (hmsg : strContains msg "User rejected" = true) :
    (handleSubmit env s).1.error = some "You cancelled the transaction" ∧
    (msg ≠ "You cancelled the transaction" →
      (handleSubmit env s).1.error ≠ some msg) := by
  have hclass : classifyTxError msg = "You cancelled the transaction" := by
    simp [classifyTxError, hmsg]
  rw [handleSubmit_pass env s hpk hr hf h0 h5,
    submitResume_sendError env (startedState s) hsend]
  constructor
  · simp [failState, hclass]
  · intro hne
    simp [failState, hclass]
    intro hcontra
    exact hne hcontra.symm

/-- Witness for C9 at a concrete input: rejection message
`User rejected the request`. -/
theorem c9_witness :
    (0:ℚ) < 1/100 ∧ (1:ℚ)/100 ≤ 0.5 ∧
    envRejected.sendTransaction (paymentTx "Sender1" "Recipient1" (1/100)) sendOpts =
      Except.error "User rejected the request" ∧
    strContains "User rejected the request" "User rejected" = true ∧
    (handleSubmit envRejected formReady).1.error =
      some "You cancelled the transaction" := by
  have h0 : (0:ℚ) < 1/100 := by norm_num
  have h5 : (1:ℚ)/100 ≤ 0.5 := by norm_num
  have h := c9_user_rejected_classified envRejected formReady "Sender1" "Recipient1"
    "User rejected the request" (1/100) rfl rfl rfl h0 h5 rfl (by decide)
  exact ⟨h0, h5, rfl, by decide, h.1⟩

/-- C1: at most one submission is in flight per form instance.  While the
first invocation is suspended at the `sendTransaction` await, the visible
component state has `isProcessing = true`, so the submit button is
disabled and a second click is a no-op; consequently the double-click
scenario hands exactly one transaction to the wallet's sign-and-send. -/
theorem c1_no_double_submit
    (env : Env) (s : FormState) (pk r : String) (a : ℚ)
    (hpk : env.publicKey = some pk)
    (hr : env.parsePublicKey s.recipient = some r)
    (hf : env.parseFloat s.amount = some a)
    (h0 : 0 < a) (h5 : a ≤ 0.5) :
    (startedState s).isProcessing = true ∧
    submitClick env (startedState s) = (startedState s, Trace.empty) ∧
    (doubleSubmit env s).2.sends = [paymentTx pk r a] := by
  refine ⟨rfl, ?_, ?_⟩
  · simp [submitClick]
  · unfold doubleSubmit
    rw [submitPhase1_pass env s hpk hr hf h0 h5]
    simp only [submitClick, startedState_isProcessing, Bool.true_or, if_pos]
    simp [Trace.append, Trace.empty, submitResume_sends_nil]

/-- Witness for C1 at a concrete input: the double-click scenario performs
exactly one wallet call. -/
theorem c1_witness :
    (0:ℚ) < 1/100 ∧ (1:ℚ)/100 ≤ 0.5 ∧
    (startedState formReady).isProcessing = true ∧
    submitClick envOk (startedState formReady) = (startedState formReady, Trace.empty) ∧
    (doubleSubmit envOk formReady).2.sends =
      [paymentTx "Sender1" "Recipient1" (1/100)] := by
  have h0 : (0:ℚ) < 1/100 := by norm_num
  have h5 : (1:ℚ)/100 ≤ 0.5 := by norm_num
  have h := c1_no_double_submit envOk formReady "Sender1" "Recipient1" (1/100)
    rfl rfl rfl h0 h5
  exact ⟨h0, h5, h.1, h.2.1, h.2.2⟩

/-- C10: with a connected wallet, every run of the flow ends with
`isProcessing = false`, and every run that does not end in the success
state ends with an error message displayed, the three form fields exactly
as the user entered them, exactly one scheduled timer — the 8000 ms
error-clearing one, whose firing clears the displayed error — and the
submit button enabled again (a further click re-runs the handler rather
than being a no-op). -/
theorem c10_failure_returns_editable_idle
    (env : Env) (s : FormState) (pk : String)
    (hpk : env.publicKey = some pk) :
    (handleSubmit env s).1.isProcessing = false ∧
    ((handleSubmit env s).1.success = false →
      (∃ m, (handleSubmit env s).1.error = some m) ∧
      (handleSubmit env s).1.recipient = s.recipient ∧
      (handleSubmit env s).1.amount = s.amount ∧
      (handleSubmit env s).1.memo = s.memo ∧
      (handleSubmit env s).2.timers = [(8000, TimerAction.clearError)] ∧
      (applyTimerAction TimerAction.clearError (handleSubmit env s).1).error = none ∧
      submitClick env (handleSubmit env s).1 = handleSubmit env (handleSubmit env s).1) := by
  cases hr : env.parsePublicKey s.recipient with
  | none =>
    simp [handleSubmit, submitPhase1_badRecipient env s hpk hr, failState, failTrace,
      startedState, applyTimerAction, submitClick, hpk]
  | some r =>
    cases hf : env.parseFloat s.amount with
    | none =>
      simp [handleSubmit, submitPhase1_nanAmount env s hpk hr hf, failState, failTrace,
        startedState, applyTimerAction, submitClick, hpk]
    | some a =>
      rcases le_or_lt a 0 with ha | h0
      · simp [handleSubmit, submitPhase1_nonposAmount env s hpk hr hf ha, failState,
          failTrace, startedState, applyTimerAction, submitClick, hpk]
      · rcases le_or_lt a 0.5 with h5 | hgt
        · rw [handleSubmit_pass env s hpk hr hf h0 h5]
          cases hsend : env.sendTransaction (paymentTx pk r a) sendOpts with
          | error msg =>
            rw [submitResume_sendError env (startedState s) hsend]
            simp [failState, failTrace, startedState, applyTimerAction, submitClick, hpk]
          | ok sig =>
            cases hc : raceOutcome (env.confirmTransaction sig) with
            | error msg =>
              rw [submitResume_confirmError env (startedState s) hsend hc]
              simp [failState, failTrace, startedState, applyTimerAction, submitClick, hpk]
            | ok u =>
              rw [submitResume_confirmed env (startedState s) hsend hc]
              simp
        · simp [handleSubmit, submitPhase1_tooLarge env s hpk hr hf hgt, failState,
            failTrace, startedState, applyTimerAction, submitClick, hpk]

/-- Witness for C10 at a concrete failing input (too-large amount): fields
kept, error timer scheduled, button re-enabled. -/
theorem c10_witness :
    envOk.publicKey = some "Sender1" ∧
    (handleSubmit envOk { formReady with amount := "0.51" }).1.isProcessing = false ∧
    ((handleSubmit envOk { formReady with amount := "0.51" }).1.success = false →
      (handleSubmit envOk { formReady with amount := "0.51" }).1.recipient =
        "Recipient1") := by
  have h := c10_failure_returns_editable_idle envOk
    { formReady with amount := "0.51" } "Sender1" rfl
  exact ⟨rfl, h.1, fun hs => (h.2 hs).2.1⟩

/-- C8 counterexample: at a concrete input whose confirmation promise
never settles (so the 30000 ms timeout elapses without a definitive
status), the rendered error banner carries the static heading
`Transaction Failed` — the UI does claim the transaction failed,
refuting the part of the claim that says the flow asserts neither
success nor failure of the underlying transaction. -/
theorem c8_counterexample :
    (handleSubmit envTimeout { formReady with amount := "0.2" }).1.error =
      some "Confirmation timeout" ∧
    (renderErrorBanner (handleSubmit envTimeout { formReady with amount := "0.2" }).1).map
      Prod.fst = some "Transaction Failed" := by
  have h0 : (0:ℚ) < 1/5 := by norm_num
  have h5 : (1:ℚ)/5 ≤ 0.5 := by norm_num
  have hrun := @handleSubmit_pass envTimeout { formReady with amount := "0.2" }
    "Sender1" "Recipient1" (1/5) rfl rfl rfl h0 h5
  have hresume := @submitResume_confirmError envTimeout
    (startedState { formReady with amount := "0.2" })
    (paymentTx "Sender1" "Recipient1" (1/5))
    "SIG123" "Confirmation timeout" rfl rfl
  have hclass : classifyTxError "Confirmation timeout" = "Confirmation timeout" := by
    decide
  rw [hrun, hresume]
  simp [failState, hclass, renderErrorBanner, errorBannerTitle]

/-- C8 (amended): if the confirmation promise has not settled within the
30000 ms timeout, the flow surfaces the message `Confirmation timeout`
and returns to an idle editable state (`isProcessing = false`) with no
success asserted in its state (`success = false`, no stored signature);
however the message is displayed in the generic error banner, whose
static heading `Transaction Failed` presents the ambiguous outcome as a
transaction failure. -/
theorem c8_timeout_amended
    (env : Env) (s : FormState) (pk r sig : String) (a : ℚ)
    (hpk : env.publicKey = some pk)
    (hr : env.parsePublicKey s.recipient = some r)
    (hf : env.parseFloat s.amount = some a)
    (h0 : 0 < a) (h5 : a ≤ 0.5)
    (hsend : env.sendTransaction (paymentTx pk r a) sendOpts = Except.ok sig)
    (hlate : (env.confirmTransaction sig).settlesAt = none ∨
      ∃ t, (env.confirmTransaction sig).settlesAt = some t ∧ 30000 < t) :
    (handleSubmit env s).1.error = some "Confirmation timeout" ∧
    (handleSubmit env s).1.isProcessing = false ∧
    (handleSubmit env s).1.success = false ∧
    (handleSubmit env s).1.txSignature = none ∧
    renderErrorBanner (handleSubmit env s).1 =
      some ("Transaction Failed", "Confirmation timeout") := by
  have hc : raceOutcome (env.confirmTransaction sig) =
      Except.error "Confirmation timeout" := by
    rcases hlate with hnone | ⟨t, ht, htgt⟩
    · simp [raceOutcome, hnone]
    · simp [raceOutcome, ht, if_neg (not_le.mpr htgt)]
  have hclass : classifyTxError "Confirmation timeout" = "Confirmation timeout" := by
    decide
  rw [handleSubmit_pass env s hpk hr hf h0 h5,
    submitResume_confirmError env (startedState s) hsend hc]
  simp [failState, hclass, renderErrorBanner, errorBannerTitle, startedState]

/-- Witness for the amended C8 at a concrete input: confirmation never
settles, timeout surfaced, idle state, failure-styled banner. -/
theorem c8_witness :
    (0:ℚ) < 1/5 ∧ (1:ℚ)/5 ≤ 0.5 ∧
    (envTimeout.confirmTransaction "SIG123").settlesAt = none ∧
    (handleSubmit envTimeout { formReady with amount := "0.2", memo := "t" }).1.error =
      some "Confirmation timeout" ∧
    (handleSubmit envTimeout
      { formReady with amount := "0.2", memo := "t" }).1.isProcessing = false := by
  have h0 : (0:ℚ) < 1/5 := by norm_num
  have h5 : (1:ℚ)/5 ≤ 0.5 := by norm_num
  have h := c8_timeout_amended envTimeout { formReady with amount := "0.2", memo := "t" }
    "Sender1" "Recipient1" "SIG123" (1/5) rfl rfl rfl h0 h5 rfl (Or.inl rfl)
  exact ⟨h0, h5, rfl, h.1, h.2.1⟩

end ZenithFlow
